import Mathlib

/-!
Verification of `intradistance_verticality.py` (surface_morphometrics).

Shallow embedding conventions:
* Python floats are modelled as exact rationals `ℚ`; the IEEE NaN sentinel
  produced by `np.nan` is modelled as `Option.none`, so a per-direction probe
  result has type `Option ℚ × ℤ` (distance-or-NaN, cell id).
* The VTK cell locator (`vtkStaticCellLocator.IntersectWithLine`) is an external
  collaborator; it is modelled as an abstract function from the query segment
  endpoints `p0`, `pmax` and the tolerance to a result `(cell1_id, p1)`.
* `np.linalg.norm` involves a square root and is therefore not `ℚ`-valued; it is
  modelled as an abstract parameter `nrm : Vec3 → ℚ` applied to `p1 - point`,
  exactly where the source applies `np.linalg.norm(p1 - point)`.
* The verticality formula uses `arccos`, modelled over `ℝ` with `Real.arccos`.
-/

namespace SurfaceMorphometrics

/-- A 3-vector of rationals, modelling a numpy array of three floats. -/
structure Vec3 where
  x : ℚ
  y : ℚ
  z : ℚ
deriving DecidableEq, Repr

def Vec3.add (a b : Vec3) : Vec3 := ⟨a.x + b.x, a.y + b.y, a.z + b.z⟩

def Vec3.sub (a b : Vec3) : Vec3 := ⟨a.x - b.x, a.y - b.y, a.z - b.z⟩

def Vec3.smul (c : ℚ) (a : Vec3) : Vec3 := ⟨c * a.x, c * a.y, c * a.z⟩

def Vec3.neg (a : Vec3) : Vec3 := ⟨-a.x, -a.y, -a.z⟩

/-- A Python float that may be NaN (`np.nan` is `none`). -/
abbrev Dist := Option ℚ

/-- Result of `locator.IntersectWithLine(p0, pmax, tolerance, t, p1, pcoords,
sub_id, cell1_id)`: the found cell id (`-1` when there is no intersection) and
the intersection point `p1`. -/
structure LocResult where
  cell1_id : ℤ
  p1 : Vec3
deriving DecidableEq, Repr

/-- The VTK cell locator, modelled as a pure function of the segment endpoints
`p0`, `pmax` and the `tolerance` argument of `IntersectWithLine`. -/
abbrev Locator := Vec3 → Vec3 → ℚ → LocResult

/-- One iteration of the `for direction in [-normal, normal]` loop body of
`get_dist_two_directions` (lines 62-82): build the segment endpoints, query the
locator, and classify the result as a `(distance, cell id)` pair or the
sentinel `(NaN, -1)`.  `nrm` models `np.linalg.norm`. -/
def probe_one (nrm : Vec3 → ℚ) (locator : Locator) (point direction : Vec3)
    (dist_min dist_max tolerance : ℚ) : Dist × ℤ :=
  let p0 := point.add (Vec3.smul dist_min direction)
  let pmax := point.add (Vec3.smul dist_max direction)
  let r := locator p0 pmax tolerance
  let distance := nrm (r.p1.sub point)
  if r.cell1_id = -1 then (none, -1)
  else if distance > dist_max + 1 ∨ distance < dist_min - 1 then (none, -1)
  else (some distance, r.cell1_id)

/-- The reordering step of `get_dist_two_directions` (lines 83-93): returns the
(close, far) pair of `(distance, id)` results.  `np.isnan d` is `d = none`. -/
def reorder (r0 r1 : Dist × ℤ) : (Dist × ℤ) × (Dist × ℤ) :=
  match r0.1 with
  | none => (r1, r0)
  | some d0 =>
    match r1.1 with
    | none => (r0, r1)
    | some d1 => if d0 > d1 then (r1, r0) else (r0, r1)

/-- `get_dist_two_directions(point, normal, locator, dist_min, dist_max,
tolerance)` (lines 49-98): probe along `-normal` then `normal`, reorder, and
return `(close dist, close id, far dist, far id)`. -/
def get_dist_two_directions (nrm : Vec3 → ℚ) (locator : Locator)
    (point normal : Vec3) (dist_min dist_max tolerance : ℚ) :
    Dist × ℤ × Dist × ℤ :=
  let res0 := probe_one nrm locator point normal.neg dist_min dist_max tolerance
  let res1 := probe_one nrm locator point normal dist_min dist_max tolerance
  let cf := reorder res0 res1
  (cf.1.1, cf.1.2, cf.2.1, cf.2.2)

/-- The assertion of line 96, `assert np.isnan(distances[1]) or
distances[0] <= distances[1]` (a comparison with NaN is false in Python). -/
def ordering_assert (d0 d1 : Dist) : Prop :=
  d1 = none ∨ ∃ a b, d0 = some a ∧ d1 = some b ∧ a ≤ b

instance : (d0 d1 : Dist) → Decidable (ordering_assert d0 d1)
  | _, none => isTrue (Or.inl rfl)
  | none, some _ => isFalse (by simp [ordering_assert])
  | some a, some b =>
    if h : a ≤ b then isTrue (Or.inr ⟨a, b, rfl, rfl, h⟩)
    else isFalse (by simp [ordering_assert, h])

/-- The per-point body of the loop in `surface_self_distances` (line 149):
note the call hardcodes `tolerance=0.001`, ignoring the `tolerance` parameter
of `surface_self_distances`. -/
def surface_self_distances_point (nrm : Vec3 → ℚ) (locator : Locator)
    (xyz n_v : Vec3) (dist_min dist_max tolerance : ℚ) :
    Dist × ℤ × Dist × ℤ :=
  get_dist_two_directions nrm locator xyz n_v dist_min dist_max (1 / 1000)

/-- The whole per-point loop of `surface_self_distances` (lines 148-149) over
the list of `(xyz, n_v)` attribute pairs of the graph's vertices. -/
def surface_self_distances (nrm : Vec3 → ℚ) (locator : Locator)
    (points : List (Vec3 × Vec3)) (dist_min dist_max tolerance : ℚ) :
    List (Dist × ℤ × Dist × ℤ) :=
  points.map fun p =>
    surface_self_distances_point nrm locator p.1 p.2 dist_min dist_max tolerance

/-- Python string slice `s[:-k]` (all characters but the last `k`; empty when
`k ≥ len(s)`). -/
def sliceDropLast (k : Nat) (s : String) : String :=
  s.take (s.length - k)

/-- `surface_file = graph_file[:-3]+".vtp"` (line 180 of `intra_cli`). -/
def surface_file_of (graph_file : String) : String :=
  sliceDropLast 3 graph_file ++ ".vtp"

/-- `csvname = graph_file[:-3]+".csv"` (line 164, `surface_self_distances`). -/
def csv_of_distance_pass (graph_file : String) : String :=
  sliceDropLast 3 graph_file ++ ".csv"

/-- `graph_file[:-4]+".csv"` (line 117, `surface_verticality`). -/
def csv_of_verticality_pass (graph_file : String) : String :=
  sliceDropLast 4 graph_file ++ ".csv"

/-- The per-point verticality of `surface_verticality` (line 111):
`90 - np.abs(np.arccos(z) * 180 / np.pi - 90)`, floats modelled as reals. -/
noncomputable def verticality (normal_z : ℝ) : ℝ :=
  90 - |Real.arccos normal_z * 180 / Real.pi - 90|

/-! ### Concrete instances used to evaluate the model on specific inputs -/

/-- A model norm assigning every vector length 10 (e.g. two parallel sheets 10
units apart, as in the spec's Scenario C). -/
def constNorm10 : Vec3 → ℚ := fun _ => 10

/-- A model norm assigning every vector length 5/2. -/
def constNorm52 : Vec3 → ℚ := fun _ => 5 / 2

/-- A locator that reports a hit (cell 0) only when queried with tolerance
exactly 1/10; with any other tolerance it reports no intersection. -/
def tolProbeLocator : Locator := fun _ _ tolerance =>
  if tolerance = 1 / 10 then ⟨0, ⟨10, 0, 0⟩⟩ else ⟨-1, ⟨0, 0, 0⟩⟩

/-- A locator that always reports a hit in cell 0. -/
def alwaysHitLocator : Locator := fun _ _ _ => ⟨0, ⟨0, 0, 0⟩⟩

/-- A locator whose reported cell depends on the sign of the query segment's
start `z`-coordinate: cell 5 below the plane, cell 7 above. -/
def sideLocator : Locator := fun p0 _ _ =>
  if p0.z < 0 then ⟨5, ⟨0, 0, 0⟩⟩ else ⟨7, ⟨0, 0, 0⟩⟩

/-- A locator that misses below the plane and hits cell 4 above it, modelling
Scenario C (one sheet on one side only). -/
def oneSideLocator : Locator := fun p0 _ _ =>
  if p0.z < 0 then ⟨-1, ⟨0, 0, 0⟩⟩ else ⟨4, ⟨10, 0, 0⟩⟩

/-! ### Helper lemmas about `probe_one` and `reorder` -/

/-- A single probe either yields the sentinel `(NaN, -1)` or a valid pair whose
distance obeys the slop-adjusted window and whose id is the locator's cell id. -/
lemma probe_one_cases (nrm : Vec3 → ℚ) (locator : Locator) (point direction : Vec3)
    (dist_min dist_max tolerance : ℚ) :
    probe_one nrm locator point direction dist_min dist_max tolerance = (none, -1) ∨
    ∃ d, probe_one nrm locator point direction dist_min dist_max tolerance
        = (some d, (locator (point.add (Vec3.smul dist_min direction))
            (point.add (Vec3.smul dist_max direction)) tolerance).cell1_id) ∧
      dist_min - 1 ≤ d ∧ d ≤ dist_max + 1 ∧
      (locator (point.add (Vec3.smul dist_min direction))
        (point.add (Vec3.smul dist_max direction)) tolerance).cell1_id ≠ -1 := by
  unfold probe_one
  dsimp only
  split_ifs with h1 h2
  · exact Or.inl rfl
  · exact Or.inl rfl
  · push_neg at h2
    exact Or.inr ⟨_, rfl, h2.2, h2.1, h1⟩

lemma probe_one_fst_none {nrm : Vec3 → ℚ} {locator : Locator}
    {point direction : Vec3} {dist_min dist_max tolerance : ℚ}
    (h : (probe_one nrm locator point direction dist_min dist_max tolerance).1 = none) :
    probe_one nrm locator point direction dist_min dist_max tolerance = (none, -1) := by
  rcases probe_one_cases nrm locator point direction dist_min dist_max tolerance with
    h' | ⟨d, h', _⟩
  · exact h'
  · rw [h'] at h
    exact absurd h (by simp)

lemma probe_one_id_iff (nrm : Vec3 → ℚ) (locator : Locator)
    (point direction : Vec3) (dist_min dist_max tolerance : ℚ) :
    (probe_one nrm locator point direction dist_min dist_max tolerance).2 = -1 ↔
    (probe_one nrm locator point direction dist_min dist_max tolerance).1 = none := by
  rcases probe_one_cases nrm locator point direction dist_min dist_max tolerance with
    h' | ⟨d, h', _, _, hid⟩ <;> rw [h']
  · simp
  · simpa using hid

lemma probe_one_bounds {nrm : Vec3 → ℚ} {locator : Locator}
    {point direction : Vec3} {dist_min dist_max tolerance : ℚ} {d : ℚ}
    (h : (probe_one nrm locator point direction dist_min dist_max tolerance).1 = some d) :
    dist_min - 1 ≤ d ∧ d ≤ dist_max + 1 := by
  rcases probe_one_cases nrm locator point direction dist_min dist_max tolerance with
    h' | ⟨d', h', hb1, hb2, _⟩ <;> rw [h'] at h
  · exact absurd h (by simp)
  · obtain rfl : d' = d := by simpa using h
    exact ⟨hb1, hb2⟩

lemma reorder_none_left (r0 r1 : Dist × ℤ) (h : r0.1 = none) :
    reorder r0 r1 = (r1, r0) := by
  obtain ⟨d0, i0⟩ := r0
  obtain rfl : d0 = none := h
  rfl

lemma reorder_some_none (r0 r1 : Dist × ℤ) (d0 : ℚ) (h0 : r0.1 = some d0)
    (h1 : r1.1 = none) : reorder r0 r1 = (r0, r1) := by
  obtain ⟨a0, i0⟩ := r0
  obtain ⟨a1, i1⟩ := r1
  obtain rfl : a0 = some d0 := h0
  obtain rfl : a1 = none := h1
  rfl

lemma reorder_swap (r0 r1 : Dist × ℤ) (d0 d1 : ℚ) (h0 : r0.1 = some d0)
    (h1 : r1.1 = some d1) (h : d1 < d0) : reorder r0 r1 = (r1, r0) := by
  obtain ⟨a0, i0⟩ := r0
  obtain ⟨a1, i1⟩ := r1
  obtain rfl : a0 = some d0 := h0
  obtain rfl : a1 = some d1 := h1
  simp [reorder, h]

lemma reorder_keep (r0 r1 : Dist × ℤ) (d0 d1 : ℚ) (h0 : r0.1 = some d0)
    (h1 : r1.1 = some d1) (h : d0 ≤ d1) : reorder r0 r1 = (r0, r1) := by
  obtain ⟨a0, i0⟩ := r0
  obtain ⟨a1, i1⟩ := r1
  obtain rfl : a0 = some d0 := h0
  obtain rfl : a1 = some d1 := h1
  simp [reorder, not_lt.mpr h]

lemma reorder_fst_mem (r0 r1 : Dist × ℤ) :
    (reorder r0 r1).1 = r0 ∨ (reorder r0 r1).1 = r1 := by
  obtain ⟨a0, i0⟩ := r0
  obtain ⟨a1, i1⟩ := r1
  cases a0 <;> cases a1 <;> simp [reorder] <;> split_ifs <;> simp

lemma reorder_snd_mem (r0 r1 : Dist × ℤ) :
    (reorder r0 r1).2 = r0 ∨ (reorder r0 r1).2 = r1 := by
  obtain ⟨a0, i0⟩ := r0
  obtain ⟨a1, i1⟩ := r1
  cases a0 <;> cases a1 <;> simp [reorder] <;> split_ifs <;> simp

/-- The reorder step always establishes the line-96 assertion. -/
lemma reorder_assert_ok (r0 r1 : Dist × ℤ) :
    ordering_assert (reorder r0 r1).1.1 (reorder r0 r1).2.1 := by
  obtain ⟨a0, i0⟩ := r0
  obtain ⟨a1, i1⟩ := r1
  cases a0 with
  | none => exact Or.inl rfl
  | some d0 =>
    cases a1 with
    | none => exact Or.inl rfl
    | some d1 =>
      by_cases h : d0 > d1
      · rw [reorder_swap _ _ d0 d1 rfl rfl h]
        exact Or.inr ⟨d1, d0, rfl, rfl, le_of_lt h⟩
      · rw [reorder_keep _ _ d0 d1 rfl rfl (not_lt.mp h)]
        exact Or.inr ⟨d0, d1, rfl, rfl, not_lt.mp h⟩

/-- `get_dist_two_directions` written through `reorder` of the two probes. -/
lemma get_dist_eq (nrm : Vec3 → ℚ) (locator : Locator) (point normal : Vec3)
    (dist_min dist_max tolerance : ℚ) :
    get_dist_two_directions nrm locator point normal dist_min dist_max tolerance =
      ((reorder (probe_one nrm locator point normal.neg dist_min dist_max tolerance)
          (probe_one nrm locator point normal dist_min dist_max tolerance)).1.1,
       (reorder (probe_one nrm locator point normal.neg dist_min dist_max tolerance)
          (probe_one nrm locator point normal dist_min dist_max tolerance)).1.2,
       (reorder (probe_one nrm locator point normal.neg dist_min dist_max tolerance)
          (probe_one nrm locator point normal dist_min dist_max tolerance)).2.1,
       (reorder (probe_one nrm locator point normal.neg dist_min dist_max tolerance)
          (probe_one nrm locator point normal dist_min dist_max tolerance)).2.2) := rfl

/-! ### Claim theorems -/

/-- Claim C1: the reordering of the two probe results follows exactly the
stated priority — if the first (−normal) distance is NaN, swap near/far
regardless of the second's validity; else if the second (+normal) distance is
NaN, do not swap; else if the first distance is strictly greater, swap; else do
not swap.  In particular, when exactly one probe hits, the valid pair occupies
the close slot and the sentinel `(NaN, -1)` the far slot. -/
theorem reorder_priority_rule (nrm : Vec3 → ℚ) (locator : Locator)
    (point normal : Vec3) (dist_min dist_max tolerance : ℚ) (r0 r1 : Dist × ℤ)
    (e0 : r0 = probe_one nrm locator point normal.neg dist_min dist_max tolerance)
    (e1 : r1 = probe_one nrm locator point normal dist_min dist_max tolerance) :
    (r0.1 = none →
      get_dist_two_directions nrm locator point normal dist_min dist_max tolerance
        = (r1.1, r1.2, none, -1)) ∧
    (∀ d0, r0.1 = some d0 → r1.1 = none →
      get_dist_two_directions nrm locator point normal dist_min dist_max tolerance
        = (some d0, r0.2, none, -1)) ∧
    (∀ d0 d1, r0.1 = some d0 → r1.1 = some d1 → d1 < d0 →
      get_dist_two_directions nrm locator point normal dist_min dist_max tolerance
        = (some d1, r1.2, some d0, r0.2)) ∧
    (∀ d0 d1, r0.1 = some d0 → r1.1 = some d1 → d0 ≤ d1 →
      get_dist_two_directions nrm locator point normal dist_min dist_max tolerance
        = (some d0, r0.2, some d1, r1.2)) := by
  subst e0
  subst e1
  refine ⟨?_, ?_, ?_, ?_⟩
  · intro h0
    have hs := probe_one_fst_none h0
    rw [get_dist_eq, reorder_none_left _ _ h0, hs]
  · intro d0 h0 h1
    have hs := probe_one_fst_none h1
    rw [get_dist_eq, reorder_some_none _ _ d0 h0 h1, h0, hs]
  · intro d0 d1 h0 h1 h
    rw [get_dist_eq, reorder_swap _ _ d0 d1 h0 h1 h, h0, h1]
  · intro d0 d1 h0 h1 h
    rw [get_dist_eq, reorder_keep _ _ d0 d1 h0 h1 h, h0, h1]

/-- Witness for C1: Scenario C — the −normal probe misses (query starts at
`z = -3 < 0`), the +normal probe hits cell 4 at distance 10; the result puts
the valid pair in the close slot and the sentinel in the far slot. -/
theorem reorder_priority_rule_witness :
    get_dist_two_directions constNorm10 oneSideLocator ⟨0, 0, 0⟩ ⟨0, 0, 1⟩ 3 400 (1 / 10)
      = (some 10, 4, none, -1) := by
  have h := (reorder_priority_rule constNorm10 oneSideLocator ⟨0, 0, 0⟩ ⟨0, 0, 1⟩
      3 400 (1 / 10) _ _ rfl rfl).1
      (by norm_num [probe_one, oneSideLocator, constNorm10, Vec3.add, Vec3.smul, Vec3.neg])
  rw [h]
  norm_num [probe_one, oneSideLocator, constNorm10, Vec3.add, Vec3.smul, Vec3.neg]

/-- Claim C2: the reordering always establishes the line-96 assertion — the
far distance is NaN or the close distance is ≤ the far distance — so the
`assert` in `get_dist_two_directions` never fails. -/
theorem ordering_assert_never_fails :
    (∀ r0 r1 : Dist × ℤ, ordering_assert (reorder r0 r1).1.1 (reorder r0 r1).2.1) ∧
    (∀ (nrm : Vec3 → ℚ) (locator : Locator) (point normal : Vec3)
        (dist_min dist_max tolerance : ℚ),
      ordering_assert
        (get_dist_two_directions nrm locator point normal dist_min dist_max tolerance).1
        (get_dist_two_directions nrm locator point normal dist_min dist_max tolerance).2.2.1) := by
  refine ⟨reorder_assert_ok, ?_⟩
  intro nrm locator point normal dist_min dist_max tolerance
  rw [get_dist_eq]
  exact reorder_assert_ok _ _

/-- Claim C3: in the returned quadruple, `close_id = -1` iff the close
distance is the NaN sentinel, and likewise for the far pair. -/
theorem sentinel_consistency (nrm : Vec3 → ℚ) (locator : Locator)
    (point normal : Vec3) (dist_min dist_max tolerance : ℚ) :
    ((get_dist_two_directions nrm locator point normal dist_min dist_max tolerance).2.1 = -1 ↔
      (get_dist_two_directions nrm locator point normal dist_min dist_max tolerance).1 = none) ∧
    ((get_dist_two_directions nrm locator point normal dist_min dist_max tolerance).2.2.2 = -1 ↔
      (get_dist_two_directions nrm locator point normal dist_min dist_max tolerance).2.2.1 = none) := by
  rw [get_dist_eq]
  dsimp only
  constructor
  · rcases reorder_fst_mem (probe_one nrm locator point normal.neg dist_min dist_max tolerance)
      (probe_one nrm locator point normal dist_min dist_max tolerance) with h | h <;> rw [h]
    · exact probe_one_id_iff nrm locator point normal.neg dist_min dist_max tolerance
    · exact probe_one_id_iff nrm locator point normal dist_min dist_max tolerance
  · rcases reorder_snd_mem (probe_one nrm locator point normal.neg dist_min dist_max tolerance)
      (probe_one nrm locator point normal dist_min dist_max tolerance) with h | h <;> rw [h]
    · exact probe_one_id_iff nrm locator point normal.neg dist_min dist_max tolerance
    · exact probe_one_id_iff nrm locator point normal dist_min dist_max tolerance

/-- Claim C4: a single directional probe returns the sentinel `(NaN, -1)`
exactly when the locator reports cell id −1 or the distance from the query
point to the hit point lies outside `[dist_min − 1, dist_max + 1]`; otherwise
it returns `(‖p1 − point‖, cell id)` with a nonnegative cell id (given the
VTK contract that cell ids are −1 or nonnegative). -/
theorem probe_one_classification (nrm : Vec3 → ℚ) (locator : Locator)
    (point direction : Vec3) (dist_min dist_max tolerance : ℚ)
    (r : LocResult) (d : ℚ)
    (hr : r = locator (point.add (Vec3.smul dist_min direction))
      (point.add (Vec3.smul dist_max direction)) tolerance)
    (hd : d = nrm (r.p1.sub point))
    (hvtk : r.cell1_id = -1 ∨ 0 ≤ r.cell1_id) :
    (probe_one nrm locator point direction dist_min dist_max tolerance = (none, -1) ↔
      (r.cell1_id = -1 ∨ d > dist_max + 1 ∨ d < dist_min - 1)) ∧
    (¬(r.cell1_id = -1 ∨ d > dist_max + 1 ∨ d < dist_min - 1) →
      probe_one nrm locator point direction dist_min dist_max tolerance
        = (some d, r.cell1_id) ∧ 0 ≤ r.cell1_id) := by
  subst hr
  subst hd
  unfold probe_one
  dsimp only
  constructor
  · split_ifs with h1 h2
    · simp [h1]
    · simp [h2]
    · simp [Prod.ext_iff, h1, h2]
  · split_ifs with h1 h2
    · intro h
      exact absurd (Or.inl h1) h
    · intro h
      exact absurd (Or.inr h2) h
    · intro h
      refine ⟨rfl, ?_⟩
      rcases hvtk with hv | hv
      · exact absurd (Or.inl hv) h
      · exact hv

/-- Witness for C4: a locator that always hits cell 0, with every hit 10 units
away, yields the valid pair `(10, 0)` inside the `[3, 400]` window. -/
theorem probe_one_classification_witness :
    probe_one constNorm10 alwaysHitLocator ⟨0, 0, 0⟩ ⟨0, 0, 1⟩ 3 400 (1 / 10)
      = (some 10, 0) ∧ (0 : ℤ) ≤ 0 := by
  have h := (probe_one_classification constNorm10 alwaysHitLocator ⟨0, 0, 0⟩ ⟨0, 0, 1⟩
      3 400 (1 / 10) _ _ rfl rfl (by norm_num [alwaysHitLocator])).2
      (by norm_num [alwaysHitLocator, constNorm10])
  simpa [alwaysHitLocator, constNorm10] using h

/-- Claim C5 (code bug): `surface_self_distances` invokes
`get_dist_two_directions` with the hardcoded `tolerance=0.001` (line 149),
ignoring the `tolerance` argument it was given.  With a locator whose answer
depends on the tolerance, running the loop configured with the default
tolerance 0.1 produces only sentinels, while an invocation that actually used
0.1 would find both hits; and the loop body's output does not depend on its
`tolerance` argument at all. -/
theorem tolerance_hardcoded_ignored :
    surface_self_distances constNorm10 tolProbeLocator
        [(⟨0, 0, 0⟩, ⟨0, 0, 1⟩)] 3 400 (1 / 10)
      = [(none, -1, none, -1)] ∧
    get_dist_two_directions constNorm10 tolProbeLocator ⟨0, 0, 0⟩ ⟨0, 0, 1⟩ 3 400 (1 / 10)
      = (some 10, 0, some 10, 0) ∧
    ∀ (nrm : Vec3 → ℚ) (locator : Locator) (xyz n_v : Vec3)
      (dist_min dist_max t t' : ℚ),
      surface_self_distances_point nrm locator xyz n_v dist_min dist_max t
        = surface_self_distances_point nrm locator xyz n_v dist_min dist_max t' := by
  refine ⟨?_, ?_, fun nrm locator xyz n_v dist_min dist_max t t' => rfl⟩
  · norm_num [surface_self_distances, surface_self_distances_point,
      get_dist_two_directions, probe_one, reorder, tolProbeLocator, constNorm10,
      Vec3.add, Vec3.smul, Vec3.neg]
  · norm_num [get_dist_two_directions, probe_one, reorder, tolProbeLocator,
      constNorm10, Vec3.add, Vec3.smul, Vec3.neg]

/-- Counterexample to C6 as stated: with `dist_min = 3`, `dist_max = 400` and
configured tolerance 0.1, the code accepts a hit at distance 5/2 (since the
slop used on line 77 is the constant 1, not the tolerance), yet
`5/2 < dist_min − 0.1`. -/
theorem window_bound_counterexample :
    (get_dist_two_directions constNorm52 alwaysHitLocator ⟨0, 0, 0⟩ ⟨0, 0, 1⟩
        3 400 (1 / 10)).1 = some (5 / 2) ∧
    ¬((3 : ℚ) - 1 / 10 ≤ 5 / 2) := by
  constructor
  · norm_num [get_dist_two_directions, probe_one, reorder, alwaysHitLocator,
      constNorm52, Vec3.add, Vec3.smul, Vec3.neg]
  · norm_num

/-- Claim C6 amended: every non-sentinel output distance (close or far) lies
in `[dist_min − 1, dist_max + 1]` — the slop is the fixed constant 1 of
line 77, not the configured tolerance. -/
theorem window_bound_amended (nrm : Vec3 → ℚ) (locator : Locator)
    (point normal : Vec3) (dist_min dist_max tolerance : ℚ) (d : ℚ) :
    ((get_dist_two_directions nrm locator point normal dist_min dist_max tolerance).1
        = some d → dist_min - 1 ≤ d ∧ d ≤ dist_max + 1) ∧
    ((get_dist_two_directions nrm locator point normal dist_min dist_max tolerance).2.2.1
        = some d → dist_min - 1 ≤ d ∧ d ≤ dist_max + 1) := by
  rw [get_dist_eq]
  dsimp only
  constructor
  · rcases reorder_fst_mem (probe_one nrm locator point normal.neg dist_min dist_max tolerance)
      (probe_one nrm locator point normal dist_min dist_max tolerance) with h | h <;> rw [h] <;>
      exact fun hd => probe_one_bounds hd
  · rcases reorder_snd_mem (probe_one nrm locator point normal.neg dist_min dist_max tolerance)
      (probe_one nrm locator point normal dist_min dist_max tolerance) with h | h <;> rw [h] <;>
      exact fun hd => probe_one_bounds hd

/-- Witness for C6 (amended): the accepted distance 5/2 of the counterexample
setup does lie in `[3 − 1, 400 + 1]`. -/
theorem window_bound_amended_witness :
    (3 : ℚ) - 1 ≤ 5 / 2 ∧ (5 : ℚ) / 2 ≤ 400 + 1 := by
  have h := (window_bound_amended constNorm52 alwaysHitLocator ⟨0, 0, 0⟩ ⟨0, 0, 1⟩
      3 400 (1 / 10) (5 / 2)).1
      (by norm_num [get_dist_two_directions, probe_one, reorder, alwaysHitLocator,
        constNorm52, Vec3.add, Vec3.smul, Vec3.neg])
  exact h

/-- Claim C7: for a unit normal (`normal_z ∈ [−1, 1]`) the verticality
`90 − |arccos(normal_z)·180/π − 90|` lies in `[0, 90]`; `normal_z = ±1` gives
verticality 0 and `normal_z = 0` gives verticality 90. -/
theorem verticality_bounds_and_values :
    (∀ z : ℝ, -1 ≤ z → z ≤ 1 → 0 ≤ verticality z ∧ verticality z ≤ 90) ∧
    verticality 1 = 0 ∧ verticality (-1) = 0 ∧ verticality 0 = 90 := by
  have hpi : (0 : ℝ) < Real.pi := Real.pi_pos
  refine ⟨?_, ?_, ?_, ?_⟩
  · intro z _ _
    have h1 : 0 ≤ Real.arccos z := Real.arccos_nonneg z
    have h2 : Real.arccos z ≤ Real.pi := Real.arccos_le_pi z
    have hraw0 : 0 ≤ Real.arccos z * 180 / Real.pi := by positivity
    have hraw180 : Real.arccos z * 180 / Real.pi ≤ 180 := by
      rw [div_le_iff hpi]
      nlinarith
    have habs : |Real.arccos z * 180 / Real.pi - 90| ≤ 90 := by
      rw [abs_le]
      constructor <;> linarith
    have habs0 : 0 ≤ |Real.arccos z * 180 / Real.pi - 90| := abs_nonneg _
    unfold verticality
    constructor <;> linarith
  · unfold verticality
    rw [Real.arccos_one]
    rw [zero_mul, zero_div]
    rw [zero_sub, abs_neg, abs_of_nonneg (by norm_num : (0:ℝ) ≤ 90)]
    ring
  · unfold verticality
    rw [Real.arccos_neg_one]
    rw [mul_comm, mul_div_assoc, div_self (ne_of_gt hpi), mul_one]
    norm_num
  · unfold verticality
    rw [Real.arccos_zero]
    have h : Real.pi / 2 * 180 / Real.pi = 90 := by
      field_simp
      ring
    rw [h]
    norm_num

/-- Witness for C7: at `normal_z = 0` (a vertical surface) the hypotheses hold
and the verticality is within `[0, 90]`. -/
theorem verticality_bounds_and_values_witness :
    0 ≤ verticality 0 ∧ verticality 0 ≤ 90 :=
  verticality_bounds_and_values.1 0 (neg_nonpos.mpr zero_le_one) zero_le_one

/-- Claim C8: the self-distance computation is deterministic — running it
twice on the same inputs gives the same output list, and the result at index
`i` depends only on the point/normal pair at index `i` (plus the shared
locator, norm and parameters). -/
theorem self_distances_deterministic :
    (∀ (nrm : Vec3 → ℚ) (locator : Locator) (points : List (Vec3 × Vec3))
        (dist_min dist_max tolerance : ℚ),
      surface_self_distances nrm locator points dist_min dist_max tolerance
        = surface_self_distances nrm locator points dist_min dist_max tolerance) ∧
    (∀ (nrm : Vec3 → ℚ) (locator : Locator) (points points' : List (Vec3 × Vec3))
        (dist_min dist_max tolerance : ℚ) (i : Nat),
      points[i]? = points'[i]? →
      (surface_self_distances nrm locator points dist_min dist_max tolerance)[i]?
        = (surface_self_distances nrm locator points' dist_min dist_max tolerance)[i]?) := by
  refine ⟨fun _ _ _ _ _ _ => rfl, ?_⟩
  intro nrm locator points points' dist_min dist_max tolerance i h
  unfold surface_self_distances
  rw [List.getElem?_map, List.getElem?_map, h]

/-- Witness for C8: two different lists agreeing at index 0 produce the same
result at index 0. -/
theorem self_distances_deterministic_witness :
    (surface_self_distances constNorm10 alwaysHitLocator
        [(⟨0, 0, 0⟩, ⟨0, 0, 1⟩)] 3 400 (1 / 10))[0]?
      = (surface_self_distances constNorm10 alwaysHitLocator
        [(⟨0, 0, 0⟩, ⟨0, 0, 1⟩), (⟨1, 1, 1⟩, ⟨0, 1, 0⟩)] 3 400 (1 / 10))[0]? :=
  self_distances_deterministic.2 constNorm10 alwaysHitLocator
    [(⟨0, 0, 0⟩, ⟨0, 0, 1⟩)] [(⟨0, 0, 0⟩, ⟨0, 0, 1⟩), (⟨1, 1, 1⟩, ⟨0, 1, 0⟩)]
    3 400 (1 / 10) 0 rfl

/-- Claim C9 (code bug): for a `.gt` graph path the distance pass derives the
mesh path `stem + ".vtp"` (line 180) and CSV path `stem + ".csv"` (line 164)
by stripping the 3-character extension, but the verticality pass (line 117)
strips 4 characters, so its CSV path loses the last stem character and differs
from the distance pass's CSV path. -/
theorem csv_path_mismatch :
    surface_file_of "mesh.gt" = "mesh.vtp" ∧
    csv_of_distance_pass "mesh.gt" = "mesh.csv" ∧
    csv_of_verticality_pass "mesh.gt" = "mes.csv" ∧
    csv_of_verticality_pass "mesh.gt" ≠ csv_of_distance_pass "mesh.gt" := by
  refine ⟨rfl, rfl, rfl, ?_⟩
  decide

/-- Claim C10: when both probes hit at equal distances, no swap occurs — the
close slot keeps the −normal probe's pair (probed first) and the far slot the
+normal probe's pair. -/
theorem tie_break_keeps_neg_normal_first (nrm : Vec3 → ℚ) (locator : Locator)
    (point normal : Vec3) (dist_min dist_max tolerance : ℚ) (d : ℚ) (i0 i1 : ℤ)
    (h0 : probe_one nrm locator point normal.neg dist_min dist_max tolerance = (some d, i0))
    (h1 : probe_one nrm locator point normal dist_min dist_max tolerance = (some d, i1)) :
    get_dist_two_directions nrm locator point normal dist_min dist_max tolerance
      = (some d, i0, some d, i1) := by
  rw [get_dist_eq, reorder_keep _ _ d d (by rw [h0]) (by rw [h1]) le_rfl, h0, h1]

/-- Witness for C10: a locator hitting cell 5 below the plane and cell 7 above
it, both at distance 10 — the close slot gets cell 5 (−normal), the far slot
cell 7 (+normal). -/
theorem tie_break_keeps_neg_normal_first_witness :
    get_dist_two_directions constNorm10 sideLocator ⟨0, 0, 0⟩ ⟨0, 0, 1⟩ 3 400 (1 / 10)
      = (some 10, 5, some 10, 7) :=
  tie_break_keeps_neg_normal_first constNorm10 sideLocator ⟨0, 0, 0⟩ ⟨0, 0, 1⟩
    3 400 (1 / 10) 10 5 7
    (by norm_num [probe_one, sideLocator, constNorm10, Vec3.add, Vec3.smul, Vec3.neg])
    (by norm_num [probe_one, sideLocator, constNorm10, Vec3.add, Vec3.smul, Vec3.neg])

end SurfaceMorphometrics
